import Mathlib

/-!
Verification of the GateKeeper abuse-mitigation engine: a shallow embedding
of the risk classifier, the fixed-window rate limiter, the TTL reputation
store, the resolver, and the request handler, with theorems settling the
specified properties.  Time is modelled in whole seconds as natural numbers.
-/

/- ===== Domain model (package domain) ===== -/

/-- Score constant ScoreLow = 25. -/
def scoreLow : Int := 25

/-- Score constant ScoreMedium = 75. -/
def scoreMedium : Int := 75

/-- Score constant ScoreHigh = 100. -/
def scoreHigh : Int := 100

/-- Score constant ScoreThreshold = 75. -/
def scoreThreshold : Int := 75

/-- Severity tiers (SeverityLow, SeverityMedium, SeverityHigh). -/
inductive Severity
  | low
  | medium
  | high
deriving DecidableEq

/-- IPInfo record from package domain.  PayloadPath is a plain string, the
empty string meaning no captured payload, exactly as in the Go struct. -/
structure IPInfo where
  address : String
  score : Int
  country : String
  path : String
  payloadPath : String
  blockedInFW : Bool
  timestamp : Nat
deriving DecidableEq

/-- Embedding of IPInfo.IsHighRisk: score strictly above ScoreThreshold. -/
def IPInfo.isHighRisk (i : IPInfo) : Bool :=
  decide (i.score > scoreThreshold)

/-- Embedding of IPInfo.GetSeverity: High when score > ScoreThreshold, Medium when
score >= ScoreLow, Low otherwise. -/
def IPInfo.getSeverity (i : IPInfo) : Severity :=
  if i.score > scoreThreshold then Severity.high
  else if i.score >= scoreLow then Severity.medium
  else Severity.low

/- ===== Rate limiter (package ratelimit) ===== -/

/-- A visitor entry of the rate limiter. -/
structure Visitor where
  count : Nat
  lastReset : Nat
  lastAccess : Nat
deriving DecidableEq

/-- IPRateLimiter state: the visitors map, the rate and the window
duration in seconds. -/
structure IPRateLimiter where
  visitors : String → Option Visitor
  rate : Nat
  window : Nat

/-- DefaultRate = 5 requests per window. -/
def defaultRate : Nat := 5

/-- DefaultWindow = 1 minute = 60 seconds. -/
def defaultWindow : Nat := 60

/-- NewIPRateLimiter: empty visitors map with the given rate and window. -/
def newIPRateLimiter (rate window : Nat) : IPRateLimiter :=
  ⟨fun _ => none, rate, window⟩

/-- NewDefaultIPRateLimiter: rate limiter with the default values. -/
def newDefaultIPRateLimiter : IPRateLimiter :=
  newIPRateLimiter defaultRate defaultWindow

/-- Embedding of IPRateLimiter.Allow: fixed-window counting.  A first sighting stores a
fresh window with count 1 and is allowed; a sighting strictly after the
window elapsed resets the window to count 1 and is allowed; otherwise the
count is incremented and the request is allowed iff it stays at or below
the rate. -/
def IPRateLimiter.allow (rl : IPRateLimiter) (ip : String) (now : Nat) :
    Bool × IPRateLimiter :=
  match rl.visitors ip with
  | none =>
      (true,
       { rl with visitors := fun k =>
           if k = ip then some ⟨1, now, now⟩ else rl.visitors k })
  | some v =>
      if now - v.lastReset > rl.window then
        (true,
         { rl with visitors := fun k =>
             if k = ip then some ⟨1, now, now⟩ else rl.visitors k })
      else
        (decide (v.count + 1 ≤ rl.rate),
         { rl with visitors := fun k =>
             if k = ip then some ⟨v.count + 1, v.lastReset, now⟩
             else rl.visitors k })

/-- Run a sequence of allow calls for one identity at the given times,
collecting the boolean answers. -/
def allowRun (rl : IPRateLimiter) (ip : String) : List Nat → List Bool
  | [] => []
  | t :: ts =>
      let r := rl.allow ip t
      r.1 :: allowRun r.2 ip ts

/- ===== Theorems for claim C1 ===== -/

/-- Claim C1: the risk classifier is the exact pure function of the score:
for every score in 0..100, IsHighRisk holds iff score > 75, the severity is
High iff score > 75, Medium iff 25 <= score <= 75 and Low iff score < 25;
in particular 75 is Medium and not high risk, 76 is High and high risk. -/
theorem c1_risk_classifier (i : IPInfo) (h0 : 0 ≤ i.score)
    (h1 : i.score ≤ 100) :
    (i.isHighRisk = true ↔ i.score > 75) ∧
    (i.getSeverity = Severity.high ↔ i.score > 75) ∧
    (i.getSeverity = Severity.medium ↔ 25 ≤ i.score ∧ i.score ≤ 75) ∧
    (i.getSeverity = Severity.low ↔ i.score < 25) ∧
    (i.score = 75 → i.getSeverity = Severity.medium ∧ i.isHighRisk = false) ∧
    (i.score = 76 → i.getSeverity = Severity.high ∧ i.isHighRisk = true) := by
  unfold IPInfo.isHighRisk IPInfo.getSeverity scoreThreshold scoreLow
  by_cases hgt : i.score > 75
  · simp [hgt]
    omega
  · by_cases hmed : i.score ≥ 25
    · simp [hgt, hmed]
      omega
    · simp [hgt, hmed]
      omega

/-- Unfolding of allow on an identity with no visitor entry. -/
theorem allow_fresh_eq (rl : IPRateLimiter) (ip : String) (now : Nat)
    (h : rl.visitors ip = none) :
    rl.allow ip now =
      (true,
       { rl with visitors := fun k =>
           if k = ip then some ⟨1, now, now⟩ else rl.visitors k }) := by
  unfold IPRateLimiter.allow
  rw [h]

/-- Unfolding of allow on an identity inside its current window. -/
theorem allow_within_eq (rl : IPRateLimiter) (ip : String) (now : Nat)
    (v : Visitor) (h : rl.visitors ip = some v)
    (hw : ¬ now - v.lastReset > rl.window) :
    rl.allow ip now =
      (decide (v.count + 1 ≤ rl.rate),
       { rl with visitors := fun k =>
           if k = ip then some ⟨v.count + 1, v.lastReset, now⟩
           else rl.visitors k }) := by
  unfold IPRateLimiter.allow
  rw [h]
  simp [hw]

/-- Unfolding of allow on an identity whose window has elapsed. -/
theorem allow_reset_eq (rl : IPRateLimiter) (ip : String) (now : Nat)
    (v : Visitor) (h : rl.visitors ip = some v)
    (hw : now - v.lastReset > rl.window) :
    rl.allow ip now =
      (true,
       { rl with visitors := fun k =>
           if k = ip then some ⟨1, now, now⟩ else rl.visitors k }) := by
  unfold IPRateLimiter.allow
  rw [h]
  simp [hw]

/- ===== Theorems for claim C2 ===== -/

/-- Claim C2: fixed-window counting.  The first allow call after limiter
creation returns true for any identity when the limit is at least 1; with
rate 5 and window 60 s, six calls inside one window answer
true five times and then false; a call issued strictly after the window
elapsed since the window start returns true and resets the count to 1. -/
theorem c2_fixed_window :
    (∀ (rate window : Nat) (ip : String) (now : Nat), 1 ≤ rate →
        ((newIPRateLimiter rate window).allow ip now).1 = true) ∧
    (∀ (ip : String) (t1 t2 t3 t4 t5 t6 : Nat),
        t2 - t1 ≤ 60 → t3 - t1 ≤ 60 → t4 - t1 ≤ 60 →
        t5 - t1 ≤ 60 → t6 - t1 ≤ 60 →
        allowRun (newIPRateLimiter 5 60) ip [t1, t2, t3, t4, t5, t6]
          = [true, true, true, true, true, false]) ∧
    (∀ (rl : IPRateLimiter) (ip : String) (v : Visitor) (now : Nat),
        rl.visitors ip = some v → now - v.lastReset > rl.window →
        (rl.allow ip now).1 = true ∧
        (rl.allow ip now).2.visitors ip = some ⟨1, now, now⟩) := by
  refine ⟨?_, ?_, ?_⟩
  · intro rate window ip now _
    rw [allow_fresh_eq _ _ _ rfl]
  · intro ip t1 t2 t3 t4 t5 t6 h2 h3 h4 h5 h6
    have n2 : ¬ (t2 - t1 > 60) := by omega
    have n3 : ¬ (t3 - t1 > 60) := by omega
    have n4 : ¬ (t4 - t1 > 60) := by omega
    have n5 : ¬ (t5 - t1 > 60) := by omega
    have n6 : ¬ (t6 - t1 > 60) := by omega
    simp [allowRun, IPRateLimiter.allow, newIPRateLimiter,
      n2, n3, n4, n5, n6]
  · intro rl ip v now h hw
    rw [allow_reset_eq rl ip now v h hw]
    exact ⟨rfl, by simp⟩

/-- Witness for claim C2: first call allowed with limit 3; the concrete
six-call run with rate 5 inside one window; a reset strictly after the
window. -/
theorem c2_fixed_window_witness :
    ((newIPRateLimiter 3 60).allow "198.51.100.2" 0).1 = true ∧
    allowRun (newIPRateLimiter 5 60) "203.0.113.9" [0, 10, 20, 30, 40, 50]
      = [true, true, true, true, true, false] ∧
    (((newIPRateLimiter 5 60).allow "203.0.113.10" 0).2.allow
        "203.0.113.10" 100).1 = true ∧
    (((newIPRateLimiter 5 60).allow "203.0.113.10" 0).2.allow
        "203.0.113.10" 100).2.visitors "203.0.113.10" = some ⟨1, 100, 100⟩ := by
  have h := c2_fixed_window
  refine ⟨h.1 3 60 "198.51.100.2" 0 (by decide),
    h.2.1 "203.0.113.9" 0 10 20 30 40 50 (by decide) (by decide) (by decide)
      (by decide) (by decide), ?_, ?_⟩
  · exact (h.2.2 _ "203.0.113.10" ⟨1, 0, 0⟩ 100 (by decide) (by decide)).1
  · exact (h.2.2 _ "203.0.113.10" ⟨1, 0, 0⟩ 100 (by decide) (by decide)).2

/- ===== Configuration and limiter selection (config.go, gatekeeper.go) ===== -/

/-- RateLimitConfig from package config. -/
structure RateLimitConfig where
  requestsPerMinute : Nat
  enabled : Bool
deriving DecidableEq

/-- The rate-limit defaulting step of LoadConfiguration: a zero
requests-per-minute value becomes 5 with rate limiting enabled. -/
def applyRateLimitDefaults (c : RateLimitConfig) : RateLimitConfig :=
  if c.requestsPerMinute = 0 then ⟨5, true⟩ else c

/-- The rate limiter selected by NewGateKeeper: the configured
requests-per-minute over a one-minute window when enabled, otherwise
NewDefaultIPRateLimiter. -/
def newGateKeeperRateLimiter (c : RateLimitConfig) : IPRateLimiter :=
  if c.enabled then newIPRateLimiter c.requestsPerMinute 60
  else newDefaultIPRateLimiter

/-- Always-allow behaviour, following the words of the specification:
every allow call returns true, so a run answers true at every time. -/
def allowRunAlwaysAllow (ts : List Nat) : List Bool :=
  ts.map (fun _ => true)

/- ===== Theorems for claim C4 ===== -/

/-- Counterexample to claim C4: with rate limiting disabled in the
configuration (requests-per-minute 10, enabled false, unchanged by the
defaulting step), the limiter the handler uses denies the sixth call of a
window, while an always-allow implementation answers true six times — the
two are not equivalent. -/
theorem c4_counterexample :
    applyRateLimitDefaults ⟨10, false⟩ = ⟨10, false⟩ ∧
    allowRun (newGateKeeperRateLimiter (applyRateLimitDefaults ⟨10, false⟩))
        "203.0.113.9" [0, 0, 0, 0, 0, 0]
      = [true, true, true, true, true, false] ∧
    allowRunAlwaysAllow [0, 0, 0, 0, 0, 0]
      = [true, true, true, true, true, true] := by
  refine ⟨rfl, ?_, rfl⟩
  decide

/-- Claim C4 as amended: when rate limiting is disabled in the
configuration, the rate limiter used by the request handler is the default
limiter with rate 5 over a 60-second window — not an always-allow
implementation: the sixth call of a window for an identity is denied. -/
theorem c4_amended_default_limiter (c : RateLimitConfig)
    (h : c.enabled = false) :
    newGateKeeperRateLimiter c = newDefaultIPRateLimiter ∧
    newDefaultIPRateLimiter.rate = 5 ∧
    newDefaultIPRateLimiter.window = 60 ∧
    allowRun (newGateKeeperRateLimiter c) "198.51.100.7" [0, 0, 0, 0, 0, 0]
      = [true, true, true, true, true, false] := by
  have he : newGateKeeperRateLimiter c = newDefaultIPRateLimiter := by
    unfold newGateKeeperRateLimiter
    rw [h]
    simp
  refine ⟨he, rfl, rfl, ?_⟩
  rw [he]
  decide

/-- Witness for the amended claim C4 at the concrete disabled
configuration with requests-per-minute 10. -/
theorem c4_amended_default_limiter_witness :
    newGateKeeperRateLimiter ⟨10, false⟩ = newDefaultIPRateLimiter ∧
    newDefaultIPRateLimiter.rate = 5 ∧
    newDefaultIPRateLimiter.window = 60 ∧
    allowRun (newGateKeeperRateLimiter ⟨10, false⟩)
        "198.51.100.7" [0, 0, 0, 0, 0, 0]
      = [true, true, true, true, true, false] :=
  c4_amended_default_limiter ⟨10, false⟩ rfl

/- ===== Reputation store (package database, SQLite ip_info table) ===== -/

/-- One row of the ip_info table.  payloadPath is nullable in the schema,
hence an Option here. -/
structure DBRow where
  address : String
  score : Int
  country : String
  path : String
  payloadPath : Option String
  blockedInFW : Bool
  timestamp : Nat
  updatedAt : Nat
deriving DecidableEq

/-- IPDatabase: the ip_info table keyed by its primary key address, plus
the configured TTL in seconds. -/
structure IPDatabase where
  rows : String → Option DBRow
  ttl : Nat

/-- An empty database with the given TTL. -/
def emptyDB (ttl : Nat) : IPDatabase :=
  ⟨fun _ => none, ttl⟩

/-- The in-memory record built from a row, as scanned by Get: a NULL
payload path leaves the string field empty. -/
def rowToInfo (r : DBRow) : IPInfo :=
  ⟨r.address, r.score, r.country, r.path, r.payloadPath.getD "",
   r.blockedInFW, r.timestamp⟩

/-- The nullable payload value bound by Set: an empty string becomes NULL. -/
def infoPayloadOpt (i : IPInfo) : Option String :=
  if i.payloadPath = "" then none else some i.payloadPath

/-- Embedding of IPDatabase.Get: the row for the address, filtered by the SQL
condition datetime(timestamp, ttl seconds) > datetime(now). -/
def IPDatabase.get (db : IPDatabase) (ip : String) (now : Nat) :
    Option IPInfo :=
  match db.rows ip with
  | none => none
  | some r => if r.timestamp + db.ttl > now then some (rowToInfo r) else none

/-- Embedding of IPDatabase.Set: INSERT with timestamp now, ON CONFLICT(address) DO
UPDATE overwriting score, country, path, payload_path, blocked_in_fw and
updated_at — the conflict branch does not touch the stored timestamp. -/
def IPDatabase.set (db : IPDatabase) (info : IPInfo) (now : Nat) :
    IPDatabase :=
  { db with rows := fun k =>
      if k = info.address then
        match db.rows info.address with
        | none =>
            some ⟨info.address, info.score, info.country, info.path,
              infoPayloadOpt info, info.blockedInFW, now, now⟩
        | some old =>
            some { old with
              score := info.score
              country := info.country
              path := info.path
              payloadPath := infoPayloadOpt info
              blockedInFW := info.blockedInFW
              updatedAt := now }
      else db.rows k }

/-- Embedding of IPDatabase.MarkBlocked: UPDATE ip_info SET blocked_in_fw = 1,
updated_at = now WHERE address = ip; no row matched means no change. -/
def IPDatabase.markBlocked (db : IPDatabase) (ip : String) (now : Nat) :
    IPDatabase :=
  { db with rows := fun k =>
      if k = ip then
        match db.rows ip with
        | none => none
        | some r => some { r with blockedInFW := true, updatedAt := now }
      else db.rows k }

/-- Embedding of IPDatabase.cleanup: DELETE the rows whose
datetime(timestamp, ttl seconds) < datetime(now). -/
def IPDatabase.cleanup (db : IPDatabase) (now : Nat) : IPDatabase :=
  { db with rows := fun k =>
      match db.rows k with
      | none => none
      | some r => if r.timestamp + db.ttl < now then none else some r }

/- ===== Theorems for claim C3 ===== -/

/-- Claim C3: a record freshly inserted at time T is returned by get at
every time before T + TTL; at every time after T + TTL the row is still
present yet get treats it as absent; and the periodic sweep deletes
exactly the rows whose age strictly exceeds the TTL, keeping the others
unchanged. -/
theorem c3_ttl_get_sweep (db : IPDatabase) (info : IPInfo) (T : Nat)
    (hfresh : db.rows info.address = none) :
    (∀ now, now < T + db.ttl →
        ((db.set info T).get info.address now).isSome = true) ∧
    (∀ now, T + db.ttl < now →
        ((db.set info T).rows info.address).isSome = true ∧
        (db.set info T).get info.address now = none) ∧
    (∀ (d : IPDatabase) (now : Nat) (k : String) (r : DBRow),
        d.rows k = some r →
        ((d.cleanup now).rows k = none ↔ now - r.timestamp > d.ttl) ∧
        (now - r.timestamp ≤ d.ttl → (d.cleanup now).rows k = some r)) := by
  have hrow : (db.set info T).rows info.address =
      some ⟨info.address, info.score, info.country, info.path,
        infoPayloadOpt info, info.blockedInFW, T, T⟩ := by
    simp [IPDatabase.set, hfresh]
  refine ⟨?_, ?_, ?_⟩
  · intro now hlt
    have hok : T + db.ttl > now := by omega
    simp [IPDatabase.get, IPDatabase.set, hfresh, hok]
  · intro now hgt
    have hexp : ¬ (T + db.ttl > now) := by omega
    refine ⟨by simp [hrow], ?_⟩
    simp [IPDatabase.get, IPDatabase.set, hfresh, hexp]
  · intro d now k r hr
    constructor
    · constructor
      · intro hnone
        by_contra hle
        have hkeep : ¬ (r.timestamp + d.ttl < now) := by omega
        simp [IPDatabase.cleanup, hr, hkeep] at hnone
      · intro hage
        have hdel : r.timestamp + d.ttl < now := by omega
        simp [IPDatabase.cleanup, hr, hdel]
    · intro hage
      have hkeep : ¬ (r.timestamp + d.ttl < now) := by omega
      simp [IPDatabase.cleanup, hr, hkeep]

/-- Sample record inserted for the claim C3 witness. -/
def c3Info : IPInfo := ⟨"203.0.113.4", 20, "DE", "/x", "", false, 0⟩

/-- Witness for claim C3: TTL 3600 s, insertion at time 100, lookups at
times 3699 and 3701, and the sweep on the resulting database at time
10000. -/
theorem c3_ttl_get_sweep_witness :
    (((emptyDB 3600).set c3Info 100).get "203.0.113.4" 3699).isSome = true ∧
    ((((emptyDB 3600).set c3Info 100).rows "203.0.113.4").isSome = true ∧
      ((emptyDB 3600).set c3Info 100).get "203.0.113.4" 3701 = none) ∧
    ((((emptyDB 3600).set c3Info 100).cleanup 10000).rows "203.0.113.4"
        = none ↔ 10000 - 100 > 3600) := by
  have h := c3_ttl_get_sweep (emptyDB 3600) c3Info 100 rfl
  refine ⟨h.1 3699 (by decide), h.2.1 3701 (by decide), ?_⟩
  have h3 := h.2.2 ((emptyDB 3600).set c3Info 100) 10000 "203.0.113.4"
      ⟨"203.0.113.4", 20, "DE", "/x", none, false, 100, 100⟩ (by decide)
  exact h3.1

/- ===== Theorems for claim C6 ===== -/

/-- First put for the claim C6 counterexample: payload reference present. -/
def c6InfoWithPayload : IPInfo :=
  ⟨"203.0.113.5", 80, "CN", "/a", "/payloads/p1.bin", false, 0⟩

/-- Second put for the claim C6 counterexample: same address, no payload
reference supplied. -/
def c6InfoNoPayload : IPInfo :=
  ⟨"203.0.113.5", 85, "CN", "/b", "", false, 0⟩

/-- Database after the first put of the claim C6 counterexample. -/
def c6db1 : IPDatabase := (emptyDB 3600).set c6InfoWithPayload 0

/-- Database after the second put of the claim C6 counterexample. -/
def c6db2 : IPDatabase := c6db1.set c6InfoNoPayload 10

/-- Counterexample to claim C6: after a put that stored a payload
reference, a second put for the same address with no payload reference
nulls the stored reference out instead of preserving it. -/
theorem c6_counterexample :
    (c6db1.rows "203.0.113.5").map DBRow.payloadPath
      = some (some "/payloads/p1.bin") ∧
    (c6db2.rows "203.0.113.5").map DBRow.payloadPath = some none ∧
    (c6db2.rows "203.0.113.5").map DBRow.score = some 85 := by
  refine ⟨?_, ?_, ?_⟩ <;> decide

/-- Claim C6 as amended: put is an upsert-merge in which the new lastPath,
score and blocked values overwrite the old ones, and the payload reference
is also overwritten unconditionally with the caller's value — when the
caller supplies no payload reference the stored one is cleared to null,
not preserved; address and creation timestamp are kept. -/
theorem c6_upsert_overwrites (db : IPDatabase) (info : IPInfo) (now : Nat)
    (old : DBRow) (h : db.rows info.address = some old) :
    (db.set info now).rows info.address =
      some { old with
        score := info.score
        country := info.country
        path := info.path
        payloadPath := infoPayloadOpt info
        blockedInFW := info.blockedInFW
        updatedAt := now } := by
  simp [IPDatabase.set, h]

/-- Witness for the amended claim C6 at the concrete databases of the
counterexample scenario. -/
theorem c6_upsert_overwrites_witness :
    (c6db1.set c6InfoNoPayload 10).rows "203.0.113.5" =
      some ⟨"203.0.113.5", 85, "CN", "/b", none, false, 0, 10⟩ := by
  have h := c6_upsert_overwrites c6db1 c6InfoNoPayload 10
      ⟨"203.0.113.5", 80, "CN", "/a", some "/payloads/p1.bin", false, 0, 0⟩
      (by decide)
  rw [show c6InfoNoPayload.address = "203.0.113.5" from rfl] at h
  exact h

/- ===== Theorems for claim C10 ===== -/

/-- Claim C10: markBlocked only raises the blocked flag of the addressed
row: address, score, country, path, payload reference and the creation
timestamp are unchanged, so the time at which the record expires for get
is unchanged; rows of other addresses are untouched; when the address is
absent the database is left entirely unchanged. -/
theorem c10_markBlocked_frame (db : IPDatabase) (ip : String) (now : Nat) :
    (∀ r, db.rows ip = some r →
        (db.markBlocked ip now).rows ip =
          some { r with blockedInFW := true, updatedAt := now } ∧
        (∀ t, ((db.markBlocked ip now).get ip t).isSome
            = ((db.get ip t)).isSome)) ∧
    (∀ k, ¬ k = ip → (db.markBlocked ip now).rows k = db.rows k) ∧
    (db.rows ip = none → db.markBlocked ip now = db) := by
  refine ⟨?_, ?_, ?_⟩
  · intro r hr
    refine ⟨by simp [IPDatabase.markBlocked, hr], ?_⟩
    intro t
    by_cases hl : r.timestamp + db.ttl > t
    · simp [IPDatabase.get, IPDatabase.markBlocked, hr, hl]
    · simp [IPDatabase.get, IPDatabase.markBlocked, hr, hl]
  · intro k hk
    simp [IPDatabase.markBlocked, hk]
  · intro hnone
    have hfun : (db.markBlocked ip now).rows = db.rows := by
      funext k
      by_cases hk : k = ip
      · subst hk
        simp [IPDatabase.markBlocked, hnone]
      · simp [IPDatabase.markBlocked, hk]
    have hev : db.markBlocked ip now =
        ⟨(db.markBlocked ip now).rows, (db.markBlocked ip now).ttl⟩ := rfl
    rw [hev, hfun]
    rfl

/-- Row stored for the claim C10 witness. -/
def c10Row : DBRow := ⟨"203.0.113.6", 90, "RU", "/w", none, false, 50, 50⟩

/-- Database holding exactly the claim C10 witness row. -/
def c10db : IPDatabase :=
  ⟨fun k => if k = "203.0.113.6" then some c10Row else none, 3600⟩

/-- Witness for claim C10: marking the present row blocked at time 60
changes only its blocked flag, keeps get visibility at time 3000, leaves
another key untouched, and marking an absent address leaves the empty
database unchanged. -/
theorem c10_markBlocked_frame_witness :
    (c10db.markBlocked "203.0.113.6" 60).rows "203.0.113.6" =
      some ⟨"203.0.113.6", 90, "RU", "/w", none, true, 50, 60⟩ ∧
    ((c10db.markBlocked "203.0.113.6" 60).get "203.0.113.6" 3000).isSome
      = (c10db.get "203.0.113.6" 3000).isSome ∧
    (c10db.markBlocked "203.0.113.6" 60).rows "198.51.100.9"
      = c10db.rows "198.51.100.9" ∧
    (emptyDB 3600).markBlocked "203.0.113.6" 60 = emptyDB 3600 := by
  have h1 := c10_markBlocked_frame c10db "203.0.113.6" 60
  have h2 := c10_markBlocked_frame (emptyDB 3600) "203.0.113.6" 60
  refine ⟨(h1.1 c10Row (by decide)).1, (h1.1 c10Row (by decide)).2 3000,
    h1.2.1 "198.51.100.9" (by decide), h2.2.2 rfl⟩

/- ===== Resolver and request handler (gatekeeper.go) ===== -/

/-- The external collaborators of one request: the AbuseIPDB answer
(none on error, mapped to score 0 and country Unknown), the captured
payload path (empty when capture is disabled or produced nothing),
whether at least one UniFi backend confirms a firewall block, and the
delivery outcomes of the notification goroutines (an error message per
failed destination). -/
structure ResolveEnv where
  externResult : Option (Int × String)
  payload : String
  unifiSuccess : Bool
  notifyResults : List (Option String)

/-- The cache-miss tail of getOrCreateIPInfo: build the record from the
external answer (or the score-0 Unknown fallback), store it via Set,
then on a high-risk score with a confirming firewall backend flip the
in-memory blocked flag and MarkBlocked in the store. -/
def resolveMiss (db : IPDatabase) (ip path : String) (env : ResolveEnv)
    (now : Nat) : IPInfo × IPDatabase :=
  let sc := match env.externResult with
    | some sc => sc
    | none => ((0 : Int), "Unknown")
  let info0 : IPInfo := ⟨ip, sc.1, sc.2, path, env.payload, false, now⟩
  let db1 := db.set info0 now
  if info0.isHighRisk && env.unifiSuccess then
    ({ info0 with blockedInFW := true }, db1.markBlocked ip now)
  else
    (info0, db1)

/-- getOrCreateIPInfo: on a store hit return the cached record with the
path replaced in memory only (the store is not written); on a miss run
the resolution tail. -/
def getOrCreateIPInfo (db : IPDatabase) (ip path : String)
    (env : ResolveEnv) (now : Nat) : IPInfo × IPDatabase :=
  match db.get ip now with
  | some entry => ({ entry with path := path }, db)
  | none => resolveMiss db ip path env now

/-- The client-facing outcome of one handled request. -/
inductive Response
  | allowOK
  | tooManyRequests
  | tarpit
  | drop
deriving DecidableEq

/-- Result of one handler invocation: the response, whether the rate
limiter was consulted, whether a reputation lookup (store get or external
call) happened, whether the notification fan-out was dispatched, the
errors the notification goroutines logged, and the updated shared
state. -/
structure HandlerResult where
  response : Response
  rateChecked : Bool
  lookupPerformed : Bool
  notified : Bool
  loggedErrors : List String
  db : IPDatabase
  limiter : IPRateLimiter

/-- Embedding of MultiNotifier.Notify: each destination runs in its own goroutine and
an error is only logged; the logged errors of one fan-out. -/
def multiNotifyErrors (rs : List (Option String)) : List String :=
  rs.filterMap id

/-- The request handler: excluded identities are allowed at once with no
rate check and no lookup; then the rate limiter is consulted and a denial
answers Too Many Requests with no lookup; otherwise the record is
resolved, the notification fan-out dispatched, and the connection is
tarpitted when high-risk, dropped otherwise. -/
def handlerRun (excluded : List String) (db : IPDatabase)
    (rl : IPRateLimiter) (ip path : String) (env : ResolveEnv)
    (now : Nat) : HandlerResult :=
  if excluded.contains ip then
    ⟨Response.allowOK, false, false, false, [], db, rl⟩
  else
    let ar := rl.allow ip now
    if ar.1 = false then
      ⟨Response.tooManyRequests, true, false, false, [], db, ar.2⟩
    else
      let gi := getOrCreateIPInfo db ip path env now
      ⟨if gi.1.isHighRisk then Response.tarpit else Response.drop,
       true, true, true, multiNotifyErrors env.notifyResults, gi.2, ar.2⟩

/- ===== Theorems for claim C7 ===== -/

/-- Store after a first high-risk sighting with a confirming firewall
backend, for the claim C7 counterexample. -/
def c7db1 : IPDatabase :=
  (getOrCreateIPInfo (emptyDB 3600) "198.18.0.1" "/a"
    ⟨some (90, "RU"), "", true, []⟩ 0).2

/-- Store after a second sighting of the same identity once the record's
TTL has expired, for the claim C7 counterexample. -/
def c7db2 : IPDatabase :=
  (getOrCreateIPInfo c7db1 "198.18.0.1" "/b"
    ⟨some (10, "RU"), "", false, []⟩ 3601).2

/-- Counterexample to claim C7: a stored record with blocked = true is
overwritten with blocked = false by ordinary request handling — after
the record's TTL expires, the next request misses the TTL-filtered get
and re-creates the row via put, which resets the still-present row's
blocked flag to false without any sweep having run. -/
theorem c7_counterexample :
    (c7db1.rows "198.18.0.1").map DBRow.blockedInFW = some true ∧
    (c7db2.rows "198.18.0.1").map DBRow.blockedInFW = some false := by
  constructor <;> decide

/-- Claim C7 as amended: the blocked flag is monotonic while the record
is unexpired — for every identity whose stored record has blocked = true
and whose TTL has not yet passed, request handling leaves the row
untouched and markBlocked keeps the flag true; only once the record
expires may a fresh resolution store blocked = false again. -/
theorem c7_blocked_monotonic_within_ttl (db : IPDatabase)
    (ip path : String) (env : ResolveEnv) (now : Nat) (r : DBRow)
    (hr : db.rows ip = some r) (hb : r.blockedInFW = true)
    (hlive : r.timestamp + db.ttl > now) :
    (getOrCreateIPInfo db ip path env now).2.rows ip = some r ∧
    ((getOrCreateIPInfo db ip path env now).2.rows ip).map
      DBRow.blockedInFW = some true ∧
    (∀ t, ((db.markBlocked ip t).rows ip).map DBRow.blockedInFW
      = some true) := by
  have hget : db.get ip now = some (rowToInfo r) := by
    simp [IPDatabase.get, hr, hlive]
  have hsame : (getOrCreateIPInfo db ip path env now).2 = db := by
    simp [getOrCreateIPInfo, hget]
  refine ⟨by rw [hsame]; exact hr, by rw [hsame, hr]; simp [hb], ?_⟩
  intro t
  simp [IPDatabase.markBlocked, hr]

/-- Witness for the amended claim C7: a live blocked row survives the
next request untouched and markBlocked keeps it blocked. -/
theorem c7_blocked_monotonic_within_ttl_witness :
    (getOrCreateIPInfo c7db1 "198.18.0.1" "/c"
        ⟨some (10, "RU"), "", false, []⟩ 1000).2.rows "198.18.0.1"
      = some ⟨"198.18.0.1", 90, "RU", "/a", none, true, 0, 0⟩ ∧
    ((getOrCreateIPInfo c7db1 "198.18.0.1" "/c"
        ⟨some (10, "RU"), "", false, []⟩ 1000).2.rows "198.18.0.1").map
      DBRow.blockedInFW = some true :=
  ⟨(c7_blocked_monotonic_within_ttl c7db1 "198.18.0.1" "/c"
      ⟨some (10, "RU"), "", false, []⟩ 1000
      ⟨"198.18.0.1", 90, "RU", "/a", none, true, 0, 0⟩
      (by decide) rfl (by decide)).1,
   (c7_blocked_monotonic_within_ttl c7db1 "198.18.0.1" "/c"
      ⟨some (10, "RU"), "", false, []⟩ 1000
      ⟨"198.18.0.1", 90, "RU", "/a", none, true, 0, 0⟩
      (by decide) rfl (by decide)).2.1⟩

/- ===== Theorems for claim C8 ===== -/

/-- Claim C8: an excluded identity is allowed immediately with no rate
check and no reputation lookup; a rate-limited identity is rejected with
the rate-limit signal and no reputation lookup; a reputation lookup
happens exactly when the identity is not excluded and the rate limiter
allows the request. -/
theorem c8_order_of_checks (excluded : List String) (db : IPDatabase)
    (rl : IPRateLimiter) (ip path : String) (env : ResolveEnv)
    (now : Nat) :
    (excluded.contains ip = true →
        (handlerRun excluded db rl ip path env now).response
          = Response.allowOK ∧
        (handlerRun excluded db rl ip path env now).rateChecked = false ∧
        (handlerRun excluded db rl ip path env now).lookupPerformed
          = false) ∧
    (excluded.contains ip = false → (rl.allow ip now).1 = false →
        (handlerRun excluded db rl ip path env now).response
          = Response.tooManyRequests ∧
        (handlerRun excluded db rl ip path env now).lookupPerformed
          = false) ∧
    ((handlerRun excluded db rl ip path env now).lookupPerformed = true ↔
        excluded.contains ip = false ∧ (rl.allow ip now).1 = true) := by
  by_cases hm : ip ∈ excluded
  · simp [handlerRun, hm]
  · cases ha : (rl.allow ip now).1
    · simp [handlerRun, hm, ha]
    · simp [handlerRun, hm, ha]

/-- Limiter state already holding five requests of the current window for
the claim C8 witness. -/
def c8Limiter : IPRateLimiter :=
  ⟨fun k => if k = "203.0.113.9" then some ⟨5, 0, 0⟩ else none, 5, 60⟩

/-- Witness for claim C8: an excluded identity is allowed with no lookup,
and the sixth request of a window is rejected with no lookup. -/
theorem c8_order_of_checks_witness :
    (handlerRun ["198.51.100.3"] (emptyDB 3600) (newIPRateLimiter 5 60)
        "198.51.100.3" "/" ⟨some (90, "US"), "", false, []⟩ 0).response
      = Response.allowOK ∧
    (handlerRun ["198.51.100.3"] (emptyDB 3600) (newIPRateLimiter 5 60)
        "198.51.100.3" "/" ⟨some (90, "US"), "", false, []⟩
        0).lookupPerformed = false ∧
    (handlerRun [] (emptyDB 3600) c8Limiter "203.0.113.9" "/"
        ⟨some (90, "US"), "", false, []⟩ 10).response
      = Response.tooManyRequests ∧
    (handlerRun [] (emptyDB 3600) c8Limiter "203.0.113.9" "/"
        ⟨some (90, "US"), "", false, []⟩ 10).lookupPerformed = false := by
  have h1 := c8_order_of_checks ["198.51.100.3"] (emptyDB 3600)
    (newIPRateLimiter 5 60) "198.51.100.3" "/"
    ⟨some (90, "US"), "", false, []⟩ 0
  have h2 := c8_order_of_checks [] (emptyDB 3600) c8Limiter "203.0.113.9"
    "/" ⟨some (90, "US"), "", false, []⟩ 10
  exact ⟨(h1.1 (by decide)).1, (h1.1 (by decide)).2.2,
    (h2.2.1 (by decide) (by decide)).1, (h2.2.1 (by decide) (by decide)).2⟩

/- ===== Theorems for claim C9 ===== -/

/-- Handler result of a low-risk request for the claim C9 counterexample. -/
def c9res : HandlerResult :=
  handlerRun [] (emptyDB 3600) (newIPRateLimiter 5 60) "203.0.113.8" "/"
    ⟨some (10, "FR"), "", false, []⟩ 0

/-- Counterexample to claim C9: a request that ends in Drop (score 10,
not high-risk) still dispatches the notification fan-out — notification
is not reserved to escalation events. -/
theorem c9_counterexample :
    c9res.response = Response.drop ∧ c9res.notified = true := by
  constructor <;> decide

/-- The resolver never reads the notification delivery outcomes. -/
theorem getOrCreate_notify_irrel (db : IPDatabase) (ip path : String)
    (e : Option (Int × String)) (p : String) (u : Bool)
    (rs rs2 : List (Option String)) (now : Nat) :
    getOrCreateIPInfo db ip path ⟨e, p, u, rs⟩ now
      = getOrCreateIPInfo db ip path ⟨e, p, u, rs2⟩ now := rfl

/-- Claim C9 as amended: the notification fan-out is dispatched if and
only if the request passes the exclusion and rate-limit checks — both
Drop and Escalate outcomes notify, while Allow (excluded) and Reject
(rate-limited) never do; delivery failures are only logged and the
client-facing response does not depend on them. -/
theorem c9_notify_iff_resolved (excluded : List String) (db : IPDatabase)
    (rl : IPRateLimiter) (ip path : String) (now : Nat)
    (e : Option (Int × String)) (p : String) (u : Bool)
    (rs rs2 : List (Option String)) :
    ((handlerRun excluded db rl ip path ⟨e, p, u, rs⟩ now).notified = true ↔
      (excluded.contains ip = false ∧ (rl.allow ip now).1 = true)) ∧
    (handlerRun excluded db rl ip path ⟨e, p, u, rs⟩ now).response
      = (handlerRun excluded db rl ip path ⟨e, p, u, rs2⟩ now).response ∧
    ((handlerRun excluded db rl ip path ⟨e, p, u, rs⟩ now).notified = true →
      (handlerRun excluded db rl ip path ⟨e, p, u, rs⟩ now).loggedErrors
        = multiNotifyErrors rs) := by
  by_cases hm : ip ∈ excluded
  · simp [handlerRun, hm]
  · cases ha : (rl.allow ip now).1
    · simp [handlerRun, hm, ha]
    · simp [handlerRun, hm, ha,
        getOrCreate_notify_irrel db ip path e p u rs rs2 now]

/-- Witness for the amended claim C9 at a concrete high-risk request with
one failed and one successful notification destination. -/
theorem c9_notify_iff_resolved_witness :
    ((handlerRun [] (emptyDB 3600) (newIPRateLimiter 5 60) "203.0.113.2"
        "/x" ⟨some (80, "BR"), "", false, [some "timeout", none]⟩
        0).notified = true ↔
      (([] : List String).contains "203.0.113.2" = false ∧
        ((newIPRateLimiter 5 60).allow "203.0.113.2" 0).1 = true)) ∧
    (handlerRun [] (emptyDB 3600) (newIPRateLimiter 5 60) "203.0.113.2"
        "/x" ⟨some (80, "BR"), "", false, [some "timeout", none]⟩
        0).response
      = (handlerRun [] (emptyDB 3600) (newIPRateLimiter 5 60) "203.0.113.2"
        "/x" ⟨some (80, "BR"), "", false, []⟩ 0).response ∧
    (handlerRun [] (emptyDB 3600) (newIPRateLimiter 5 60) "203.0.113.2"
        "/x" ⟨some (80, "BR"), "", false, [some "timeout", none]⟩
        0).loggedErrors = multiNotifyErrors [some "timeout", none] := by
  have h := c9_notify_iff_resolved [] (emptyDB 3600)
    (newIPRateLimiter 5 60) "203.0.113.2" "/x" 0 (some (80, "BR")) ""
    false [some "timeout", none] []
  exact ⟨h.1, h.2.1, h.2.2 (by decide)⟩

/- ===== Concurrency model for claim C5 ===== -/

/-- Control point of one resolution in flight: about to consult the
store, about to perform the external call, about to store the freshly
built record, or done. -/
inductive RPhase
  | ready
  | calling
  | saving
  | finished
deriving DecidableEq

/-- One caller running getOrCreateIPInfo, with its answer once done. -/
structure ResolverThread where
  phase : RPhase
  result : Option IPInfo
deriving DecidableEq

/-- Two callers resolving concurrently over the shared store, with the
count of external reputation calls performed so far.  The source takes
no per-identity lock (the keyed-lock utility IPQueue is never used), so
every interleaving of the two callers' steps is possible. -/
structure ResolverSys where
  db : IPDatabase
  t1 : ResolverThread
  t2 : ResolverThread
  externCalls : Nat

/-- One atomic step of a single caller, following getOrCreateIPInfo: the
store lookup, then on a miss the external call, then the store write. -/
def resolverStep (db : IPDatabase) (th : ResolverThread) (calls : Nat)
    (ip path : String) (env : ResolveEnv) (now : Nat) :
    IPDatabase × ResolverThread × Nat :=
  match th.phase with
  | RPhase.ready =>
      match db.get ip now with
      | some entry =>
          (db, ⟨RPhase.finished, some { entry with path := path }⟩, calls)
      | none => (db, ⟨RPhase.calling, none⟩, calls)
  | RPhase.calling => (db, ⟨RPhase.saving, none⟩, calls + 1)
  | RPhase.saving =>
      let r := resolveMiss db ip path env now
      (r.2, ⟨RPhase.finished, some r.1⟩, calls)
  | RPhase.finished => (db, th, calls)

/-- Step the chosen caller of the two-caller system. -/
def sysStep (s : ResolverSys) (first : Bool) (ip path : String)
    (env : ResolveEnv) (now : Nat) : ResolverSys :=
  if first then
    let r := resolverStep s.db s.t1 s.externCalls ip path env now
    ⟨r.1, r.2.1, s.t2, r.2.2⟩
  else
    let r := resolverStep s.db s.t2 s.externCalls ip path env now
    ⟨r.1, s.t1, r.2.1, r.2.2⟩

/-- Run a schedule, each entry naming the caller that steps next. -/
def runSched (s : ResolverSys) (ip path : String) (env : ResolveEnv)
    (now : Nat) : List Bool → ResolverSys
  | [] => s
  | w :: ws => runSched (sysStep s w ip path env now) ip path env now ws

/-- Both callers start at the store lookup over an empty store. -/
def c5Start : ResolverSys :=
  ⟨emptyDB 3600, ⟨RPhase.ready, none⟩, ⟨RPhase.ready, none⟩, 0⟩

/-- External collaborator answer for the claim C5 scenario. -/
def c5Env : ResolveEnv := ⟨some (90, "US"), "", false, []⟩

/-- The alternating schedule: both callers pass the cache-miss check
before either stores its record. -/
def c5End : ResolverSys :=
  runSched c5Start "203.0.113.7" "/" c5Env 0
    [true, false, true, false, true, false]

/-- Claim C5 at its failing input: two simultaneous first-time
resolutions of the same identity, interleaved so that both miss the
cache, perform TWO external reputation calls — the resolver takes no
per-identity lock, so the single-flight guarantee the claim states does
not hold (the callers do still receive identical records). -/
theorem c5_unsynchronized_double_lookup :
    c5End.externCalls = 2 ∧
    c5End.t1.phase = RPhase.finished ∧
    c5End.t2.phase = RPhase.finished ∧
    (c5End.t1.result).map IPInfo.score = some 90 ∧
    (c5End.t2.result).map IPInfo.score = some 90 := by
  refine ⟨?_, ?_, ?_, ?_, ?_⟩ <;> decide

/-- Sample record with score 76 used to witness claim C1. -/
def c1Sample : IPInfo :=
  ⟨"198.51.100.1", 76, "FR", "/", "", false, 0⟩

/-- Witness for claim C1 at the concrete boundary score 76. -/
theorem c1_risk_classifier_witness :
    c1Sample.isHighRisk = true ∧ c1Sample.getSeverity = Severity.high := by
  have h := c1_risk_classifier c1Sample (by decide) (by decide)
  exact ⟨(h.2.2.2.2.2 (by decide)).2, (h.2.2.2.2.2 (by decide)).1⟩
